import Mathlib

/-!
Shallow embedding of the agentic test-runner core of the repository
(src/lambda/test-runner/index.ts together with its decision-oracle client
gemini.ts, as concatenated in the provided source file).  Playwright page
interactions, the text-generation service and JSON.parse are external
collaborators of the source; they appear here as explicit function
parameters or record fields, while all control flow, string processing and
run state of the source is translated directly.
-/

/-- Single-quote character (code 39), written by the source inside history
entries and the prompt text. -/
def apos : String := String.singleton (Char.ofNat 39)

/-- Opening curly brace character (code 123), searched for by the JSON
cleaner of the oracle client. -/
def openBrace : Char := Char.ofNat 123

/-- Closing curly brace character (code 125). -/
def closeBrace : Char := Char.ofNat 125

/-- The decision object the oracle client hands back to the loop, i.e. the
JSON object parsed from the model response.  Absent JSON fields are
modelled by the default values: the empty string for string fields
(JS `undefined` is falsy exactly like `""` everywhere the source tests
these fields) and `false` for `success`. -/
structure Decision where
  action : String := ""
  target : String := ""
  value : String := ""
  key : String := ""
  success : Bool := false
  desc : String := ""
deriving DecidableEq, Repr

/-- Models the truthiness test `!step.action` of index.ts line 173:
the field is usable when it is present and non-empty. -/
def hasAction (d : Decision) : Bool := d.action != ""

/-- One interactive DOM element as read by the snapshot script of
index.ts lines 124-162: its tag, attributes, inner text, current value and
the three computed-style properties the visibility test looks at. -/
structure DomElement where
  tag : String
  idAttr : String
  nameAttr : String
  typeAttr : String
  innerText : String
  placeholder : String
  ariaLabel : String
  value : String
  display : String
  visibility : String
  opacity : String
deriving DecidableEq, Repr

/-- Computed-style visibility test of index.ts lines 132-137: an element
whose style has display none, visibility hidden or opacity 0 is mapped to
null by the snapshot script. -/
def isInvisible (el : DomElement) : Bool :=
  el.display = "none" || el.visibility = "hidden" || el.opacity = "0"

/-- Collapses every maximal run of whitespace characters to one space,
translating the regular-expression replace of index.ts line 141. -/
def collapseWsAux : List Char → Bool → List Char
  | [], _ => []
  | c :: rest, prevWs =>
    if c.isWhitespace then
      if prevWs then collapseWsAux rest true
      else ' ' :: collapseWsAux rest true
    else c :: collapseWsAux rest false

/-- String version of `collapseWsAux`. -/
def collapseWs (s : String) : String := String.mk (collapseWsAux s.toList false)

/-- JS String.prototype.trim: strips whitespace from both ends. -/
def jsTrim (s : String) : String :=
  String.mk (((s.toList.dropWhile Char.isWhitespace).reverse.dropWhile Char.isWhitespace).reverse)

/-- JS String.prototype.toLowerCase on the character list. -/
def jsToLower (s : String) : String := String.mk (s.toList.map Char.toLower)

/-- Inner-text normalisation of index.ts line 141: collapse whitespace,
trim, keep the first 50 characters. -/
def normText (s : String) : String := String.mk ((jsTrim (collapseWs s)).toList.take 50)

/-- Descriptor line built for one visible element, index.ts lines 150-158:
fixed field order tag, id, name, type, text, placeholder, value, each
emitted only when non-empty. -/
def descOf (el : DomElement) : String :=
  let text := normText el.innerText
  let d0 := "<" ++ jsToLower el.tag
  let d1 := if el.idAttr != "" then d0 ++ " id=\"" ++ el.idAttr ++ "\"" else d0
  let d2 := if el.nameAttr != "" then d1 ++ " name=\"" ++ el.nameAttr ++ "\"" else d1
  let d3 := if el.typeAttr != "" then d2 ++ " type=\"" ++ el.typeAttr ++ "\"" else d2
  let d4 := if text != "" then d3 ++ " text=\"" ++ text ++ "\"" else d3
  let d5 := if el.placeholder != "" then d4 ++ " placeholder=\"" ++ el.placeholder ++ "\"" else d4
  let d6 := if el.value != "" then d5 ++ " value=\"" ++ el.value ++ "\"" else d5
  d6 ++ " />"

/-- The map step of the snapshot script: null for invisible elements,
the descriptor line otherwise. -/
def lineFor (el : DomElement) : Option String :=
  if isInvisible el then none else some (descOf el)

/-- The snapshot pipeline of index.ts lines 128-161 before the final join:
map to descriptor-or-null, then filter(Boolean), which drops both the
nulls and any empty string. -/
def snapshotLines (els : List DomElement) : List String :=
  ((els.map lineFor).reduceOption).filter (fun s => s != "")

/-- The simplified HTML handed to the oracle: the surviving descriptor
lines joined with newlines (index.ts line 161). -/
def simplifiedHtml (els : List DomElement) : String :=
  String.intercalate "\n" (snapshotLines els)

/-- Character class of the bare-identifier test of index.ts line 265:
ASCII letters, digits, underscore and hyphen. -/
def isIdentChar (c : Char) : Bool :=
  c.isAlpha || c.isDigit || c = '_' || c = '-'

/-- Truthiness of the anchored match at index.ts line 265: the whole
target consists of at least one identifier character. -/
def isBareIdent (t : String) : Bool := t.toList != [] && t.toList.all isIdentChar

/-- The resolution strategies of findBestLocator, in source order. -/
inductive Strategy where
  | byId
  | byName
  | placeholder
  | label
  | roleButton
  | roleLink
  | freeText
deriving DecidableEq, Repr

/-- A resolved locator: which strategy won and the element indices it
holds after the trailing first() call (so at most one index; empty means
the locator matches nothing and count() is 0). -/
structure Located where
  strat : Strategy
  elems : List Nat
deriving DecidableEq, Repr

/-- The playwright page as seen by the translated code.  Element handles
are document-order indices; each query field returns the matching indices
in document order for the given selector or pattern string.  The regex
queries are keyed by the raw target string, since the source always passes
new RegExp(target, "i"); `regexOk` tells whether that constructor call
succeeds (it throws a SyntaxError on an invalid pattern).  The interaction
fields give the outcome of the corresponding playwright calls on one
element handle. -/
structure Page where
  elements : List DomElement
  locById : String → List Nat
  locByName : String → List Nat
  getByPlaceholder : String → List Nat
  getByLabel : String → List Nat
  getByRoleButton : String → List Nat
  getByRoleLink : String → List Nat
  getByText : String → List Nat
  regexOk : String → Bool
  clickPlain : Nat → Except String Unit
  clickForce : Nat → Except String Unit
  clickScript : Nat → Except String Unit
  fillPlain : Nat → String → Except String Unit
  fillForce : Nat → String → Except String Unit
  fillScript : Nat → String → Except String Unit
  dispatchInput : Nat → Except String Unit
  pressKey : String → Except String Unit

/-- Translation of findBestLocator, index.ts lines 263-280.  The regex is
constructed first (line 264) and an invalid pattern therefore throws
before any strategy is consulted; after that the chain is: exact id and
exact name for bare identifiers, then placeholder, accessible label,
button role, link role, and finally the free-text query whose first()
is returned without a count check. -/
def findBestLocator (page : Page) (target : String) : Except String Located :=
  if page.regexOk target = false then
    Except.error "SyntaxError: Invalid regular expression"
  else if isBareIdent target && (page.locById target).length > 0 then
    Except.ok ⟨Strategy.byId, (page.locById target).take 1⟩
  else if isBareIdent target && (page.locByName target).length > 0 then
    Except.ok ⟨Strategy.byName, (page.locByName target).take 1⟩
  else if (page.getByPlaceholder target).length > 0 then
    Except.ok ⟨Strategy.placeholder, (page.getByPlaceholder target).take 1⟩
  else if (page.getByLabel target).length > 0 then
    Except.ok ⟨Strategy.label, (page.getByLabel target).take 1⟩
  else if (page.getByRoleButton target).length > 0 then
    Except.ok ⟨Strategy.roleButton, (page.getByRoleButton target).take 1⟩
  else if (page.getByRoleLink target).length > 0 then
    Except.ok ⟨Strategy.roleLink, (page.getByRoleLink target).take 1⟩
  else
    Except.ok ⟨Strategy.freeText, (page.getByText target).take 1⟩

/-- Escalation chain of executeStep: try the plain interaction, on error
the forced one, on error the script-level one, whose error propagates. -/
def attemptChain (t1 t2 t3 : Except String Unit) : Except String Unit :=
  match t1 with
  | Except.ok _ => Except.ok ()
  | Except.error _ =>
    match t2 with
    | Except.ok _ => Except.ok ()
    | Except.error _ => t3

/-- Translation of executeStep, index.ts lines 282-324: click and fill
resolve their target, throw when the resolved locator has count 0, and run
the escalation chain; fill additionally dispatches an input event and
presses Tab after a successful chain; press forwards one key. -/
def executeStep (page : Page) (step : Decision) : Except String Unit :=
  if step.action = "click" then
    match findBestLocator page step.target with
    | Except.error e => Except.error e
    | Except.ok loc =>
      match loc.elems with
      | [] => Except.error ("Element not found: " ++ step.target)
      | el :: _ =>
        attemptChain (page.clickPlain el) (page.clickForce el) (page.clickScript el)
  else if step.action = "fill" then
    match findBestLocator page step.target with
    | Except.error e => Except.error e
    | Except.ok loc =>
      match loc.elems with
      | [] => Except.error ("Input not found: " ++ step.target)
      | el :: _ =>
        match attemptChain (page.fillPlain el step.value) (page.fillForce el step.value)
            (page.fillScript el step.value) with
        | Except.error e => Except.error e
        | Except.ok _ =>
          match page.dispatchInput el with
          | Except.error e => Except.error e
          | Except.ok _ => page.pressKey "Tab"
  else if step.action = "press" then
    page.pressKey step.key
  else
    Except.ok ()

/-- Fixed prompt text up to the embedded goal (gemini.ts template). -/
def promptIntro : String := "\n    You are an Autonomous Browser Agent.\n    \n    GOAL: \""

/-- Fixed prompt text between the goal and the joined history. -/
def promptAfterGoal : String := "\"\n    HISTORY: "

/-- Fixed prompt text between the history and the element inventory. -/
def promptAfterHistory : String := "\n    \n    VISIBLE UI ELEMENTS:\n    "

/-- Fixed prompt text after the element inventory: the instruction block
and the output schema of the gemini.ts template. -/
def promptTail : String :=
  "\n\n    ---------------------------------------------------\n    INSTRUCTIONS:\n    1. Analyze the \"VISIBLE UI ELEMENTS\".\n    2. Pick the SINGLE next logical step.\n    3. **CRITICAL**: Use the " ++ apos ++ "target" ++ apos ++
  " field to specify EXACTLY how to find the element. \n       - **PRIORITY 1**: Use " ++
  apos ++ "name" ++ apos ++ " or " ++ apos ++ "id" ++ apos ++
  " attributes (e.g. target: \"email\").\n       - **PRIORITY 2**: Use " ++
  apos ++ "placeholder" ++ apos ++ " or " ++ apos ++ "label" ++ apos ++
  " (e.g. target: \"Email address\").\n       - **PRIORITY 3**: Use visible text (e.g. target: \"Sign In\").\n\n    OUTPUT SCHEMA (Return RAW JSON object):\n    \x7b \"action\": \"click\", \"target\": \"...\" \x7d\n    \x7b \"action\": \"fill\", \"target\": \"...\", \"value\": \"...\" \x7d\n    \x7b \"action\": \"press\", \"key\": \"Enter\" \x7d\n    \x7b \"action\": \"finish\", \"success\": true, \"desc\": \"...\" \x7d\n  "

/-- JS history.slice(-5): the at most five most recent entries. -/
def sliceLast5 (history : List String) : List String := history.drop (history.length - 5)

/-- The prompt of gemini.ts lines 336-359: goal, the joined last-5 history
slice and the element inventory embedded into the fixed template text. -/
def buildPrompt (goal : String) (history : List String) (htmlConfig : String) : String :=
  promptIntro ++ goal ++ promptAfterGoal ++
    String.intercalate " -> " (sliceLast5 history) ++
    promptAfterHistory ++ htmlConfig ++ promptTail

/-- JS String.prototype.substring: clamps both indices to the string
length and swaps them when given in reverse order. -/
def jsSubstring (s : String) (a b : Nat) : String :=
  let n := s.length
  let a2 := min a n
  let b2 := min b n
  let lo := min a2 b2
  let hi := max a2 b2
  String.mk ((s.toList.drop lo).take (hi - lo))

/-- JS lastIndexOf on the character list of the response text. -/
def lastIdxOf (c : Char) (l : List Char) : Option Nat :=
  match l.reverse.findIdx? (fun x => x = c) with
  | none => none
  | some i => some (l.length - 1 - i)

/-- The JSON-cleaning step of gemini.ts lines 367-375: locate the first
opening and last closing brace, throw when either is missing, then hand
the substring to JSON.parse, modelled by the `parse` collaborator whose
result is none exactly when JSON.parse would throw. -/
def parseAiText (parse : String → Option Decision) (text : String) : Except String Decision :=
  let chars := text.toList
  match chars.findIdx? (fun x => x = openBrace), lastIdxOf closeBrace chars with
  | some start, some stop =>
    let jsonString := jsSubstring text start (stop + 1)
    match parse jsonString with
    | some d => Except.ok d
    | none => Except.error "Unexpected token in JSON"
  | _, _ => Except.error "No JSON found in response"

/-- One attempt of the retry loop: call the text-generation service with
the prompt (its result is an upstream error or the raw response text) and
run the JSON cleaner on the text. -/
def attemptResult (service : String → Nat → Except String String)
    (parse : String → Option Decision) (prompt : String) (attempt : Nat) :
    Except String Decision :=
  match service prompt attempt with
  | Except.error e => Except.error e
  | Except.ok text => parseAiText parse text

/-- The soft-failure decision returned after the third failed attempt
(gemini.ts line 381). -/
def waitDecision : Decision := { action := "wait", desc := "AI is overloaded, waiting..." }

/-- Trace of the observable effects of the oracle client: one service call
per attempt and the fixed back-off delays between attempts. -/
inductive OracleEvent where
  | call (attempt : Nat)
  | delayMs (ms : Nat)
deriving DecidableEq, Repr

/-- The retry loop of gemini.ts lines 362-386 over the per-attempt result
`svc`, with the event trace accumulated: on success return the parsed
decision, on the third failure return the wait decision, otherwise delay
1000 ms and try again.  The fuel argument only bounds the recursion; it is
3 at the top-level call, matching the three-attempt for loop. -/
def getNextStepGo (svc : Nat → Except String Decision) :
    Nat → Nat → List OracleEvent → Decision × List OracleEvent
  | 0, _, events => (waitDecision, events)
  | fuel + 1, attempt, events =>
    let events2 := events ++ [OracleEvent.call attempt]
    match svc attempt with
    | Except.ok d => (d, events2)
    | Except.error _ =>
      if attempt = 3 then (waitDecision, events2)
      else getNextStepGo svc fuel (attempt + 1) (events2 ++ [OracleEvent.delayMs 1000])

/-- getNextStep together with its effect trace. -/
def getNextStepTrace (service : String → Nat → Except String String)
    (parse : String → Option Decision) (goal : String) (history : List String)
    (htmlConfig : String) : Decision × List OracleEvent :=
  getNextStepGo (attemptResult service parse (buildPrompt goal history htmlConfig)) 3 1 []

/-- Translation of getNextStep of gemini.ts: always returns a decision,
never an exception. -/
def getNextStep (service : String → Nat → Except String String)
    (parse : String → Option Decision) (goal : String) (history : List String)
    (htmlConfig : String) : Decision :=
  (getNextStepTrace service parse goal history htmlConfig).1

/-- Number of service calls recorded in an oracle-client trace. -/
def callCount (evs : List OracleEvent) : Nat :=
  (evs.filter (fun e => match e with | OracleEvent.call _ => true | _ => false)).length

/-- Whether an attempt failed (upstream error, missing braces or
unparsable JSON substring). -/
def isErr (r : Except String Decision) : Bool :=
  match r with
  | Except.error _ => true
  | Except.ok _ => false

/-- Environment of one run of the agent loop: the page state offered to
iteration n, the text-generation service responses (per iteration, prompt
and attempt) and the JSON.parse collaborator. -/
structure LoopEnv where
  pages : Nat → Page
  service : Nat → String → Nat → Except String String
  parse : String → Option Decision

/-- Mutable run state of the handler loop, index.ts lines 113-117. -/
structure RunState where
  history : List String
  loopCount : Nat
  testResult : String
  finalMessage : String
deriving DecidableEq, Repr

/-- State before the first iteration. -/
def initialState : RunState :=
  { history := [], loopCount := 0, testResult := "Running", finalMessage := "" }

/-- History entry pushed after a successful step (index.ts line 195). -/
def successLine (d : Decision) : String :=
  "SUCCESS: " ++ d.action ++ " on " ++ apos ++ d.target ++ apos

/-- History entry pushed after a failed step (index.ts line 198). -/
def failLine (d : Decision) : String :=
  "FAILED: " ++ d.action ++ " on " ++ apos ++ d.target ++ apos

/-- The decision the oracle client returns in the iteration that starts
from state st: the snapshot of the current page is taken and getNextStep
is consulted with the goal and the full history list (it trims the
history itself when building the prompt). -/
def decisionAt (env : LoopEnv) (instructions : String) (st : RunState) : Decision :=
  getNextStep (env.service (st.loopCount + 1)) env.parse instructions st.history
    (simplifiedHtml (env.pages (st.loopCount + 1)).elements)

/-- Outcome of one loop iteration: halt carries a break of the while loop,
next carries the state the following iteration starts from. -/
inductive IterResult where
  | halt (st : RunState)
  | next (st : RunState)
deriving DecidableEq, Repr

/-- One iteration of the while loop, index.ts lines 119-202: increment the
counter, snapshot, consult the oracle, then branch on the decision.  A
decision with no usable action breaks with FAILED and the fixed brain
failure message; finish breaks with COMPLETED or FAILED according to
success and the desc as message; wait just continues; any other action is
executed and a SUCCESS or FAILED line is appended to the history. -/
def iterStep (env : LoopEnv) (instructions : String) (st : RunState) : IterResult :=
  let n := st.loopCount + 1
  let step := decisionAt env instructions st
  if hasAction step = false then
    IterResult.halt { st with
        loopCount := n
        testResult := "FAILED"
        finalMessage := "AI Brain Failure" }
  else if step.action = "finish" then
    IterResult.halt { st with
        loopCount := n
        testResult := if step.success then "COMPLETED" else "FAILED"
        finalMessage := step.desc }
  else if step.action = "wait" then
    IterResult.next { st with loopCount := n }
  else
    match executeStep (env.pages n) step with
    | Except.ok _ =>
      IterResult.next { st with loopCount := n, history := st.history ++ [successLine step] }
    | Except.error _ =>
      IterResult.next { st with loopCount := n, history := st.history ++ [failLine step] }

/-- The fixed step cap of index.ts line 115. -/
def MAX_LOOPS : Nat := 20

/-- The while loop: iterate while loopCount is below the cap, stopping
early on a halt.  The fuel argument only bounds the recursion; at the
top-level call it equals MAX_LOOPS, which suffices because every
iteration increments loopCount. -/
def runLoopAux (env : LoopEnv) (instructions : String) : Nat → RunState → RunState
  | 0, st => st
  | fuel + 1, st =>
    if st.loopCount < MAX_LOOPS then
      match iterStep env instructions st with
      | IterResult.halt st1 => st1
      | IterResult.next st1 => runLoopAux env instructions fuel st1
    else st

/-- The post-loop check of index.ts lines 204-207: when the counter has
reached the cap, the result is overwritten with FAILED and the fixed
step-budget message, regardless of how the loop ended. -/
def afterLoop (st : RunState) : RunState :=
  if MAX_LOOPS ≤ st.loopCount then
    { st with testResult := "FAILED", finalMessage := "Maximum steps exceeded." }
  else st

/-- The whole agent loop of the handler, from the initial state through
the while loop and the post-loop cap check. -/
def runAgent (env : LoopEnv) (instructions : String) : RunState :=
  afterLoop (runLoopAux env instructions MAX_LOOPS initialState)

/-- The terminal write of index.ts lines 226-241: status, result, signed
screenshot reference, the full history list and the timestamp. -/
structure UpdateRecord where
  status : String
  result : String
  screenshot : String
  history : List String
  updatedAt : String
deriving DecidableEq, Repr

/-- Builds the attribute values of the terminal UpdateCommand from the
final run state. -/
def mkFinalUpdate (st : RunState) (signedUrl : String) (now : String) : UpdateRecord :=
  { status := st.testResult, result := st.finalMessage, screenshot := signedUrl,
    history := st.history, updatedAt := now }

/-- The inbound invocation event of the runner handler.  A field is none
when absent from the event; the source reads url, instructions and testId
by destructuring (index.ts line 77) and never reads outcome. -/
structure RunnerEvent where
  url : Option String
  instructions : Option String
  outcome : Option String
  testId : Option String
deriving DecidableEq, Repr

/-- JS truthiness of an optional string field: false when the field is
absent or the empty string. -/
def truthy : Option String → Bool
  | none => false
  | some s => s != ""

/-- The rejection guard of index.ts line 78: the invocation is answered
with statusCode 400, before any browser launch, exactly when this is
true. -/
def rejectsInvocation (e : RunnerEvent) : Bool :=
  !truthy e.url || !truthy e.instructions || !truthy e.testId

/-- JS String.prototype.startsWith as a character-list prefix test. -/
def jsStartsWith (s p : String) : Bool := s.toList.take p.toList.length = p.toList

/-- The scheme defaulting of index.ts lines 81-84: https is prepended
when the url starts with neither scheme. -/
def validUrlOf (url : String) : String :=
  if !(jsStartsWith url "http://") && !(jsStartsWith url "https://") then "https://" ++ url
  else url

/-- The priority chain of the locator resolver as the spec states it in
section 4.3: strategy and match list per priority level, higher priority
first, with the id and name levels present only for bare-identifier
targets. -/
def strategyOrder (page : Page) (target : String) : List (Strategy × List Nat) :=
  (if isBareIdent target then
    [(Strategy.byId, page.locById target), (Strategy.byName, page.locByName target)]
  else []) ++
  [(Strategy.placeholder, page.getByPlaceholder target),
   (Strategy.label, page.getByLabel target),
   (Strategy.roleButton, page.getByRoleButton target),
   (Strategy.roleLink, page.getByRoleLink target),
   (Strategy.freeText, page.getByText target)]

/-- First level of a priority chain that holds at least one match. -/
def firstNonemptyStrategy : List (Strategy × List Nat) → Option (Strategy × List Nat)
  | [] => none
  | (s, l) :: rest => if l.length > 0 then some (s, l) else firstNonemptyStrategy rest

/-- Reference resolver written after the wording of the spec, section 4.3:
the first strategy in priority order with a non-empty match list wins and
its first element in document order is selected; when every level is
empty the result is the empty free-text locator. -/
def resolveByPriority (page : Page) (target : String) : Located :=
  match firstNonemptyStrategy (strategyOrder page target) with
  | some (s, l) => ⟨s, l.take 1⟩
  | none => ⟨Strategy.freeText, []⟩

/-- Raw service payload carrying a wait decision. -/
def payloadWait : String := "\x7b\"action\":\"wait\"\x7d"

/-- Raw service payload carrying a successful finish decision. -/
def payloadFinishOk : String :=
  "\x7b\"action\":\"finish\",\"success\":true,\"desc\":\"Logged in\"\x7d"

/-- Raw service payload carrying a click on a target that no strategy
resolves. -/
def payloadClickMissing : String := "\x7b\"action\":\"click\",\"target\":\"nope\"\x7d"

/-- Raw service payload carrying a click whose target is a lone opening
parenthesis, an invalid regular-expression pattern. -/
def payloadClickParen : String := "\x7b\"action\":\"click\",\"target\":\"(\"\x7d"

/-- JSON.parse collaborator for the concrete payloads above, mapping each
to the object JSON.parse would produce and failing on any other text. -/
def parseFixed : String → Option Decision := fun s =>
  if s = payloadWait then some { action := "wait" }
  else if s = payloadFinishOk then some { action := "finish", success := true, desc := "Logged in" }
  else if s = payloadClickMissing then some { action := "click", target := "nope" }
  else if s = payloadClickParen then some { action := "click", target := "(" }
  else none

/-- A page with no matching elements for any query and all interactions
succeeding. -/
def pageEmpty : Page :=
  { elements := []
    locById := fun _ => []
    locByName := fun _ => []
    getByPlaceholder := fun _ => []
    getByLabel := fun _ => []
    getByRoleButton := fun _ => []
    getByRoleLink := fun _ => []
    getByText := fun _ => []
    regexOk := fun _ => true
    clickPlain := fun _ => Except.ok ()
    clickForce := fun _ => Except.ok ()
    clickScript := fun _ => Except.ok ()
    fillPlain := fun _ _ => Except.ok ()
    fillForce := fun _ _ => Except.ok ()
    fillScript := fun _ _ => Except.ok ()
    dispatchInput := fun _ => Except.ok ()
    pressKey := fun _ => Except.ok () }

/-- A page where the target email is simultaneously an exact id match, an
exact name match, a placeholder match and a free-text match, with distinct
elements at each level. -/
def pageMulti : Page :=
  { pageEmpty with
      locById := fun t => if t = "email" then [1] else []
      locByName := fun t => if t = "email" then [2] else []
      getByPlaceholder := fun t => if t = "email" then [3] else []
      getByText := fun t => if t = "email" then [9] else [] }

/-- A page on which the pattern consisting of one opening parenthesis does
not compile as a regular expression, although elements with exactly that
placeholder and visible text exist. -/
def pageParen : Page :=
  { pageEmpty with
      regexOk := fun t => t != "("
      getByPlaceholder := fun t => if t = "(" then [4] else []
      getByText := fun t => if t = "(" then [5] else [] }

/-- Run environment whose oracle always answers with a wait decision. -/
def envAllWait : LoopEnv :=
  { pages := fun _ => pageEmpty
    service := fun _ _ _ => Except.ok payloadWait
    parse := parseFixed }

/-- Run environment whose oracle waits for nineteen iterations and
returns a successful finish decision in iteration twenty. -/
def envFinishAt20 : LoopEnv :=
  { pages := fun _ => pageEmpty
    service := fun n _ _ => Except.ok (if n = 20 then payloadFinishOk else payloadWait)
    parse := parseFixed }

/-- Run environment whose oracle always asks for a click on a target that
resolves to no element. -/
def envClickMissing : LoopEnv :=
  { pages := fun _ => pageEmpty
    service := fun _ _ _ => Except.ok payloadClickMissing
    parse := parseFixed }

/-- Run environment whose oracle always asks for a click on the invalid
pattern target, against the page that does contain matching elements. -/
def envParen : LoopEnv :=
  { pages := fun _ => pageParen
    service := fun _ _ _ => Except.ok payloadClickParen
    parse := parseFixed }

lemma append_close_ne_empty (s : String) : s ++ " />" ≠ "" := by
  intro h
  have h2 := congrArg String.length h
  rw [String.length_append] at h2
  have h3 : (" />" : String).length = 3 := rfl
  have h4 : ("" : String).length = 0 := rfl
  rw [h3, h4] at h2
  omega

lemma descOf_ne_empty (el : DomElement) : descOf el ≠ "" :=
  append_close_ne_empty _

/-- C4 counterexample: an event carrying url, instructions and testId but
no outcome field is accepted by the guard of index.ts line 78, refuting
the claim that an event missing only outcome is rejected. -/
theorem guard_ignores_outcome_cex :
    rejectsInvocation
      { url := some "example.com", instructions := some "log in", outcome := none, testId := some "t1" } = false := by
  decide

/-- C4 (amended): the runner guard rejects an invocation if and only if at
least one of url, instructions, testId is missing or empty; the outcome
field is never inspected, so changing it cannot affect the guard. -/
theorem guard_requires_three_fields (e : RunnerEvent) :
    (rejectsInvocation e = true ↔
      (truthy e.url = false ∨ truthy e.instructions = false ∨ truthy e.testId = false)) ∧
    (∀ o2, rejectsInvocation { e with outcome := o2 } = rejectsInvocation e) := by
  constructor
  · simp [rejectsInvocation, or_assoc]
  · intro o2; rfl

/-- C9: a url starting with neither scheme is navigated to with https
prepended, while a url already carrying http or https is used
unchanged. -/
theorem url_scheme_defaulting (url : String) :
    (jsStartsWith url "http://" = false → jsStartsWith url "https://" = false →
      validUrlOf url = "https://" ++ url) ∧
    (jsStartsWith url "http://" = true ∨ jsStartsWith url "https://" = true →
      validUrlOf url = url) := by
  constructor
  · intro h1 h2
    simp [validUrlOf, h1, h2]
  · intro h
    rcases h with h | h <;> simp [validUrlOf, h]

/-- C9 witness: both branches of the scheme defaulting evaluated on
concrete urls. -/
theorem url_scheme_defaulting_witness :
    validUrlOf "example.com" = "https://" ++ "example.com" ∧
    validUrlOf "http://example.com" = "http://example.com" :=
  ⟨(url_scheme_defaulting "example.com").1 (by decide) (by decide),
   (url_scheme_defaulting "http://example.com").2 (Or.inl (by decide))⟩

/-- C7: the snapshot offers exactly the descriptor lines of the visible
elements; every element whose computed style has display none, visibility
hidden or opacity 0 is dropped from the inventory. -/
theorem snapshot_drops_invisible (els : List DomElement) :
    snapshotLines els = (els.filter (fun e => !isInvisible e)).map descOf := by
  induction els with
  | nil => rfl
  | cons e rest ih =>
    by_cases h : isInvisible e
    · have hl : snapshotLines (e :: rest) = snapshotLines rest := by
        simp [snapshotLines, lineFor, h, List.reduceOption_cons_of_none]
      rw [hl, ih, List.filter_cons]
      simp [h]
    · have hl : snapshotLines (e :: rest) = descOf e :: snapshotLines rest := by
        simp [snapshotLines, lineFor, h, List.reduceOption_cons_of_some, descOf_ne_empty e]
      rw [hl, ih, List.filter_cons]
      simp [h]

/-- C5: when the target pattern compiles, findBestLocator agrees with the
reference resolver that walks the priority chain of the spec and returns the
first document-order element of the highest-priority strategy with any
match; in particular a lower level is only reached when every higher
level had zero matches. -/
theorem locator_priority_chain (page : Page) (target : String)
    (h : page.regexOk target = true) :
    findBestLocator page target = Except.ok (resolveByPriority page target) := by
  by_cases hb : isBareIdent target <;>
    by_cases h1 : 0 < (page.locById target).length <;>
    by_cases h2 : 0 < (page.locByName target).length <;>
    by_cases h3 : 0 < (page.getByPlaceholder target).length <;>
    by_cases h4 : 0 < (page.getByLabel target).length <;>
    by_cases h5 : 0 < (page.getByRoleButton target).length <;>
    by_cases h6 : 0 < (page.getByRoleLink target).length <;>
    by_cases h7 : 0 < (page.getByText target).length <;>
    simp [findBestLocator, resolveByPriority, strategyOrder, firstNonemptyStrategy,
      hb, h, h1, h2, h3, h4, h5, h6, h7, Nat.not_lt, Nat.le_zero, List.length_eq_zero] <;>
    exact List.length_eq_zero.mp (by omega)

/-- C5 witness: on a page where the target email matches id, name,
placeholder and free text at once, the resolver is evaluated through the
chain theorem and picks the exact-id element. -/
theorem locator_priority_chain_witness :
    pageMulti.regexOk "email" = true ∧
    findBestLocator pageMulti "email" = Except.ok (resolveByPriority pageMulti "email") ∧
    findBestLocator pageMulti "email" = Except.ok ⟨Strategy.byId, [1]⟩ :=
  ⟨rfl, locator_priority_chain pageMulti "email" rfl, rfl⟩

/-- C6: a click or fill decision whose target resolves to a locator with
zero elements makes the iteration append exactly one FAILED history entry,
leave the status field untouched, and hand control to the next loop
iteration. -/
theorem unresolved_target_failed_entry (env : LoopEnv) (instructions : String)
    (st : RunState) (loc : Located)
    (ha : (decisionAt env instructions st).action = "click" ∨
          (decisionAt env instructions st).action = "fill")
    (hr : findBestLocator (env.pages (st.loopCount + 1)) (decisionAt env instructions st).target
            = Except.ok loc)
    (he : loc.elems = []) :
    iterStep env instructions st = IterResult.next
      { st with
          loopCount := st.loopCount + 1
          history := st.history ++ [failLine (decisionAt env instructions st)] } ∧
    ({ st with
        loopCount := st.loopCount + 1
        history := st.history ++ [failLine (decisionAt env instructions st)] } : RunState).testResult
      = st.testResult ∧
    (∀ fuel, st.loopCount < MAX_LOOPS →
      runLoopAux env instructions (fuel + 1) st =
        runLoopAux env instructions fuel
          { st with
              loopCount := st.loopCount + 1
              history := st.history ++ [failLine (decisionAt env instructions st)] }) := by
  have hstep : iterStep env instructions st = IterResult.next
      { st with
          loopCount := st.loopCount + 1
          history := st.history ++ [failLine (decisionAt env instructions st)] } := by
    rcases ha with ha | ha <;>
      simp [iterStep, hasAction, ha, executeStep, hr, he]
  refine ⟨hstep, rfl, ?_⟩
  intro fuel hlt
  rw [runLoopAux, if_pos hlt, hstep]

/-- C6 witness: against the empty page, the click decision on the
unresolvable target nope yields exactly one FAILED entry and a
continuing iteration. -/
theorem unresolved_target_failed_entry_witness :
    iterStep envClickMissing "goal" initialState = IterResult.next
      { initialState with
          loopCount := 1
          history := [failLine (decisionAt envClickMissing "goal" initialState)] } :=
  (unresolved_target_failed_entry envClickMissing "goal" initialState ⟨Strategy.freeText, []⟩
      (Or.inl (by decide)) rfl rfl).1

/-- C10: the case-insensitive regex is built from the raw target before
any strategy runs, so on any page where the pattern does not compile the
resolver throws - whatever elements the page holds - and the loop records
the step as one FAILED history entry and continues. -/
theorem invalid_regex_throws_first (env : LoopEnv) (instructions : String) (st : RunState) :
    (∀ (page : Page) (t : String), page.regexOk t = false →
      findBestLocator page t = Except.error "SyntaxError: Invalid regular expression") ∧
    (((decisionAt env instructions st).action = "click" ∨
        (decisionAt env instructions st).action = "fill") →
      (env.pages (st.loopCount + 1)).regexOk (decisionAt env instructions st).target = false →
      iterStep env instructions st = IterResult.next
        { st with
            loopCount := st.loopCount + 1
            history := st.history ++ [failLine (decisionAt env instructions st)] }) := by
  constructor
  · intro page t hp
    simp [findBestLocator, hp]
  · intro ha hp
    rcases ha with ha | ha <;>
      simp [iterStep, hasAction, ha, executeStep, findBestLocator, hp]

/-- C10 witness: the lone-parenthesis target fails resolution on the page
that does contain a matching placeholder and matching visible text, and
the loop iteration records one FAILED entry. -/
theorem invalid_regex_throws_first_witness :
    findBestLocator pageParen "(" = Except.error "SyntaxError: Invalid regular expression" ∧
    iterStep envParen "goal" initialState = IterResult.next
      { initialState with
          loopCount := 1
          history := [failLine (decisionAt envParen "goal" initialState)] } :=
  ⟨(invalid_regex_throws_first envParen "goal" initialState).1 pageParen "(" rfl,
   (invalid_regex_throws_first envParen "goal" initialState).2 (Or.inl (by decide)) (by decide)⟩

/-- Projects the state out of an iteration outcome. -/
def stateOf : IterResult → RunState
  | IterResult.halt st => st
  | IterResult.next st => st

lemma stateOf_iterStep_loopCount (env : LoopEnv) (i : String) (st : RunState) :
    (stateOf (iterStep env i st)).loopCount = st.loopCount + 1 := by
  simp only [iterStep]
  split
  · rfl
  · split
    · rfl
    · split
      · rfl
      · split <;> rfl

lemma runLoopAux_loopCount_le (env : LoopEnv) (i : String) :
    ∀ fuel st, st.loopCount ≤ MAX_LOOPS → (runLoopAux env i fuel st).loopCount ≤ MAX_LOOPS := by
  intro fuel
  induction fuel with
  | zero => intro st h; exact h
  | succ n ih =>
    intro st h
    rw [runLoopAux]
    by_cases hc : st.loopCount < MAX_LOOPS
    · rw [if_pos hc]
      cases hi : iterStep env i st with
      | halt s1 =>
        have hl := stateOf_iterStep_loopCount env i st
        rw [hi] at hl
        simp only [stateOf] at hl
        show s1.loopCount ≤ MAX_LOOPS
        omega
      | next s1 =>
        have hl := stateOf_iterStep_loopCount env i st
        rw [hi] at hl
        simp only [stateOf] at hl
        show (runLoopAux env i n s1).loopCount ≤ MAX_LOOPS
        exact ih s1 (by omega)
    · rw [if_neg hc]; exact h

/-- C2: the agent loop performs at most MAX_LOOPS iterations for every
environment and goal (the loop counter of the final state never exceeds
the cap of 20), and whenever the counter has reached the cap the
persisted outcome is FAILED with the fixed step-budget message. -/
theorem loop_cap_and_budget_message (env : LoopEnv) (instructions : String) :
    (runAgent env instructions).loopCount ≤ MAX_LOOPS ∧
    ((runAgent env instructions).loopCount = MAX_LOOPS →
      (runAgent env instructions).testResult = "FAILED" ∧
      (runAgent env instructions).finalMessage = "Maximum steps exceeded.") := by
  have h0 := runLoopAux_loopCount_le env instructions MAX_LOOPS initialState
    (by simp [initialState, MAX_LOOPS])
  have hpres : (runAgent env instructions).loopCount
      = (runLoopAux env instructions MAX_LOOPS initialState).loopCount := by
    unfold runAgent afterLoop
    split <;> rfl
  constructor
  · rw [hpres]; exact h0
  · intro hcap
    rw [hpres] at hcap
    have hres : runAgent env instructions =
        { runLoopAux env instructions MAX_LOOPS initialState with
            testResult := "FAILED"
            finalMessage := "Maximum steps exceeded." } := by
      unfold runAgent afterLoop
      rw [if_pos (le_of_eq hcap.symm)]
    rw [hres]
    exact ⟨rfl, rfl⟩

/-- C2 witness: an oracle answering wait twenty times in a row drives the
loop to the cap and the final record reads FAILED with the step-budget
message. -/
theorem loop_cap_witness :
    (runAgent envAllWait "goal").loopCount = MAX_LOOPS ∧
    (runAgent envAllWait "goal").testResult = "FAILED" ∧
    (runAgent envAllWait "goal").finalMessage = "Maximum steps exceeded." := by
  have h := (loop_cap_and_budget_message envAllWait "goal").2 (by decide)
  exact ⟨by decide, h.1, h.2⟩

/-- C1 failing input evaluated: when the oracle waits for nineteen
iterations and returns finish with success true and desc Logged in at
iteration twenty, the loop itself ends COMPLETED with that summary, but
the post-loop cap check of index.ts lines 204-207 overwrites the outcome,
so the persisted status is FAILED with the step-budget message instead of
COMPLETED with the desc - refuting the claim for finishes at the cap. -/
theorem finish_at_cap_is_clobbered :
    decisionAt envFinishAt20 "goal"
      { history := [], loopCount := 19, testResult := "Running", finalMessage := "" }
      = { action := "finish", success := true, desc := "Logged in" } ∧
    (runLoopAux envFinishAt20 "goal" MAX_LOOPS initialState).testResult = "COMPLETED" ∧
    (runLoopAux envFinishAt20 "goal" MAX_LOOPS initialState).finalMessage = "Logged in" ∧
    (runAgent envFinishAt20 "goal").testResult = "FAILED" ∧
    (runAgent envFinishAt20 "goal").finalMessage = "Maximum steps exceeded." := by
  exact ⟨by decide, by decide, by decide, by decide, by decide⟩

lemma getNextStepGo_ok (svc : Nat → Except String Decision) (fuel attempt : Nat)
    (events : List OracleEvent) (d : Decision) (h : svc attempt = Except.ok d) :
    getNextStepGo svc (fuel + 1) attempt events = (d, events ++ [OracleEvent.call attempt]) := by
  rw [getNextStepGo]
  simp [h]

lemma getNextStepGo_err_mid (svc : Nat → Except String Decision) (fuel attempt : Nat)
    (events : List OracleEvent) (e : String) (h : svc attempt = Except.error e)
    (h3 : attempt ≠ 3) :
    getNextStepGo svc (fuel + 1) attempt events =
      getNextStepGo svc fuel (attempt + 1)
        ((events ++ [OracleEvent.call attempt]) ++ [OracleEvent.delayMs 1000]) := by
  rw [getNextStepGo]
  simp [h, h3]

lemma getNextStepGo_err3 (svc : Nat → Except String Decision) (fuel : Nat)
    (events : List OracleEvent) (e : String) (h : svc 3 = Except.error e) :
    getNextStepGo svc (fuel + 1) 3 events = (waitDecision, events ++ [OracleEvent.call 3]) := by
  rw [getNextStepGo]
  simp [h]

lemma getNextStepGo_spec (svc : Nat → Except String Decision) :
    callCount (getNextStepGo svc 3 1 []).2 ≤ 3 ∧
    (∀ ms, OracleEvent.delayMs ms ∈ (getNextStepGo svc 3 1 []).2 → ms = 1000) ∧
    ((∀ a, 1 ≤ a → a ≤ 3 → isErr (svc a) = true) → (getNextStepGo svc 3 1 []).1 = waitDecision) := by
  rcases h1 : svc 1 with e1 | d1
  · rcases h2 : svc 2 with e2 | d2
    · rcases h3 : svc 3 with e3 | d3
      · have a1 := getNextStepGo_err_mid svc 2 1 [] e1 h1 (by decide)
        have a2 := getNextStepGo_err_mid svc 1 2
          (([] ++ [OracleEvent.call 1]) ++ [OracleEvent.delayMs 1000]) e2 h2 (by decide)
        have a3 := getNextStepGo_err3 svc 0
          (((([] ++ [OracleEvent.call 1]) ++ [OracleEvent.delayMs 1000]) ++
            [OracleEvent.call 2]) ++ [OracleEvent.delayMs 1000]) e3 h3
        have s1 : getNextStepGo svc 3 1 [] =
            (waitDecision, [OracleEvent.call 1, OracleEvent.delayMs 1000, OracleEvent.call 2,
              OracleEvent.delayMs 1000, OracleEvent.call 3]) := a1.trans (a2.trans a3)
        refine ⟨?_, ?_, ?_⟩
        · rw [s1]; decide
        · intro ms hms
          rw [s1] at hms
          simp at hms
          exact hms
        · intro _; rw [s1]
      · have a1 := getNextStepGo_err_mid svc 2 1 [] e1 h1 (by decide)
        have a2 := getNextStepGo_err_mid svc 1 2
          (([] ++ [OracleEvent.call 1]) ++ [OracleEvent.delayMs 1000]) e2 h2 (by decide)
        have a3 := getNextStepGo_ok svc 0 3
          (((([] ++ [OracleEvent.call 1]) ++ [OracleEvent.delayMs 1000]) ++
            [OracleEvent.call 2]) ++ [OracleEvent.delayMs 1000]) d3 h3
        have s1 : getNextStepGo svc 3 1 [] =
            (d3, [OracleEvent.call 1, OracleEvent.delayMs 1000, OracleEvent.call 2,
              OracleEvent.delayMs 1000, OracleEvent.call 3]) := a1.trans (a2.trans a3)
        refine ⟨?_, ?_, ?_⟩
        · rw [s1]; simp [callCount]
        · intro ms hms
          rw [s1] at hms
          simp at hms
          exact hms
        · intro hall
          have hk := hall 3 (by decide) (by decide)
          rw [h3] at hk
          simp [isErr] at hk
    · have a1 := getNextStepGo_err_mid svc 2 1 [] e1 h1 (by decide)
      have a2 := getNextStepGo_ok svc 1 2
        (([] ++ [OracleEvent.call 1]) ++ [OracleEvent.delayMs 1000]) d2 h2
      have s1 : getNextStepGo svc 3 1 [] =
          (d2, [OracleEvent.call 1, OracleEvent.delayMs 1000, OracleEvent.call 2]) :=
        a1.trans a2
      refine ⟨?_, ?_, ?_⟩
      · rw [s1]; simp [callCount]
      · intro ms hms
        rw [s1] at hms
        simp at hms
        exact hms
      · intro hall
        have hk := hall 2 (by decide) (by decide)
        rw [h2] at hk
        simp [isErr] at hk
  · have s1 : getNextStepGo svc 3 1 [] = (d1, [OracleEvent.call 1]) :=
      getNextStepGo_ok svc 2 1 [] d1 h1
    refine ⟨?_, ?_, ?_⟩
    · rw [s1]; simp [callCount]
    · intro ms hms
      rw [s1] at hms
      simp at hms
    · intro hall
      have hk := hall 1 (by decide) (by decide)
      rw [h1] at hk
      simp [isErr] at hk

/-- C3: for every service, parser and input, the oracle client records at
most three service calls in its trace, every recorded back-off delay is
the fixed 1000 ms, and when all three attempts fail - upstream error,
missing braces or unparsable JSON substring alike - the client returns
the wait decision instead of raising (by its type it always returns a
decision). -/
theorem oracle_client_retry_policy (service : String → Nat → Except String String)
    (parse : String → Option Decision) (goal : String) (history : List String)
    (htmlConfig : String) :
    callCount (getNextStepTrace service parse goal history htmlConfig).2 ≤ 3 ∧
    (∀ ms, OracleEvent.delayMs ms ∈ (getNextStepTrace service parse goal history htmlConfig).2 →
      ms = 1000) ∧
    ((∀ a, 1 ≤ a → a ≤ 3 →
        isErr (attemptResult service parse (buildPrompt goal history htmlConfig) a) = true) →
      getNextStep service parse goal history htmlConfig = waitDecision) :=
  getNextStepGo_spec (attemptResult service parse (buildPrompt goal history htmlConfig))

/-- C3 witness: a service that is unreachable on every attempt makes the
client return the wait decision. -/
theorem oracle_client_retry_policy_witness :
    getNextStep (fun _ _ => Except.error "Service Unavailable") parseFixed "goal" [] ""
      = waitDecision :=
  (oracle_client_retry_policy (fun _ _ => Except.error "Service Unavailable") parseFixed
      "goal" [] "").2.2 (fun _ _ _ => rfl)

lemma sliceLast5_append (pre recent : List String) (hl : recent.length = 5) :
    sliceLast5 (pre ++ recent) = recent := by
  unfold sliceLast5
  rw [List.length_append, hl]
  have h2 : pre.length + 5 - 5 = pre.length := by omega
  rw [h2, List.drop_left]

lemma sliceLast5_of_le (l : List String) (h : l.length ≤ 5) : sliceLast5 l = l := by
  unfold sliceLast5
  have h2 : l.length - 5 = 0 := by omega
  rw [h2, List.drop_zero]

lemma sliceLast5_idem (h : List String) : sliceLast5 (sliceLast5 h) = sliceLast5 h := by
  unfold sliceLast5
  rw [List.length_drop]
  have h2 : h.length - (h.length - 5) - 5 = 0 := by omega
  rw [h2, List.drop_zero]

/-- C8: the prompt depends on the history only through its last five
entries - prepending arbitrarily many older entries to a five-entry
recent block leaves the prompt unchanged, and every prompt equals the
prompt built from the trimmed history - while the terminal storage write
carries the full, untruncated history of the run state. -/
theorem prompt_last5_and_full_persist (goal : String) (pre recent hist : List String)
    (htmlConfig : String) (st : RunState) (signedUrl now : String) :
    (recent.length = 5 →
      buildPrompt goal (pre ++ recent) htmlConfig = buildPrompt goal recent htmlConfig) ∧
    buildPrompt goal hist htmlConfig = buildPrompt goal (sliceLast5 hist) htmlConfig ∧
    (mkFinalUpdate st signedUrl now).history = st.history := by
  refine ⟨?_, ?_, rfl⟩
  · intro hl
    unfold buildPrompt
    rw [sliceLast5_append pre recent hl, sliceLast5_of_le recent (by omega)]
  · unfold buildPrompt
    rw [sliceLast5_idem]

/-- C8 witness: one older entry in front of a five-entry history leaves
the prompt unchanged. -/
theorem prompt_last5_witness :
    buildPrompt "goal" (["old entry"] ++ ["a", "b", "c", "d", "e"]) "" =
      buildPrompt "goal" ["a", "b", "c", "d", "e"] "" :=
  (prompt_last5_and_full_persist "goal" ["old entry"] ["a", "b", "c", "d", "e"] [] ""
      initialState "" "").1 (by decide)
